import Mathlib

/-!
# Verification of the custom-operator registration façade and layout benchmark

A shallow embedding of `torch/_custom_op.py` and
`benchmarks/dynamo/microbenchmarks/tensor_layout_mini_benchmark.py`.

Python exceptions are embedded as `Except PyErr`; the mutable dispatcher /
registry state is threaded explicitly as a `DispatchState` value, and the
process-wide `global_ctx_getter` variable is threaded as a `CtxGetter` value.
Code of the repository that is not part of the two embedded files (the
`torchgen` schema objects, `ShapeEnv.create_unbacked_symint`, inductor's
`FlexibleLayout.stride_ordered`, the FakeTensor invocation window) is modelled
from the specification, and each such definition says so in its doc comment.
-/

set_option autoImplicit false

namespace CustomOpSpec

/-- Python exceptions raised by the embedded code. -/
inductive PyErr where
  | valueError (msg : String)
  | runtimeError (msg : String)
  /-- `torch._subclasses.fake_tensor.DynamicOutputShapeException(op)`. -/
  | dynamicOutputShape (op : String)
  deriving DecidableEq, Repr

/-! ## The torchgen schema objects

`validate_schema` consumes a parsed `torchgen.model.FunctionSchema`; `torchgen`
is not among the embedded source files, so the schema is modelled as a record
of exactly the observations the embedded code makes of it. -/

/-- Modelled from the spec: `torchgen.model.SchemaKind`; the embedded code only
distinguishes `functional` from the rest. -/
inductive SchemaKind where
  | functional
  | inplace
  | out
  | mutable
  | scratch
  deriving DecidableEq, Repr

/-- Modelled from the spec: the alias annotation carried by a return
(`torchgen.model.Annotation`), exposing its `is_write` flag. -/
structure RetAnnot where
  is_write : Bool
  deriving DecidableEq, Repr

/-- Modelled from the spec: one schema return; `annot` embeds the Python
`annotation` field (`None` becomes `none`). -/
structure Ret where
  annot : Option RetAnnot
  deriving DecidableEq, Repr

/-- Modelled from the spec: `torchgen.model.OperatorName` with its base name
and (possibly empty) overload name. -/
structure OperatorName where
  name : String
  overload_name : String
  deriving DecidableEq, Repr

/-- `str(operator_name)`: `name.overload_name` when the overload name is
non-empty, else just `name`. -/
def OperatorName.str (o : OperatorName) : String :=
  if o.overload_name = "" then o.name else o.name ++ "." ++ o.overload_name

/-- Modelled from the spec: the `torchgen.model.Arguments` views used by the
embedded code. `post_self_positional` and `pre_tensor_options_kwarg_only` hold
the argument names in declared order; `self_arg` holds the name of an argument
named "self" when one is declared; `has_tensor_arg` embeds the
`Arguments.has_tensor_arg()` query. -/
structure Arguments where
  post_self_positional : List String
  pre_tensor_options_kwarg_only : List String
  self_arg : Option String
  has_tensor_arg : Bool
  deriving DecidableEq, Repr

/-- Modelled from the spec: a parsed `torchgen.model.FunctionSchema`, as
observed by the embedded code. `kind` embeds the `FunctionSchema.kind()`
query. -/
structure FunctionSchema where
  opName : OperatorName
  kind : SchemaKind
  returns : List Ret
  arguments : Arguments
  deriving DecidableEq, Repr

/-! ## Python functions and the dispatcher state -/

/-- The observations the embedded code makes of a Python callable:
`inspect.isfunction(func)`, `str(type(func))`, `func.__name__`, and
`inspect.getfullargspec(func)`'s `args` and `kwonlyargs` name lists. -/
structure PyFunc where
  isFunction : Bool
  typeName : String
  name : String
  args : List String
  kwonlyargs : List String
  deriving DecidableEq, Repr

/-- A mutation of the external dispatcher: `lib.define(schema_str)` or a kernel
registration `library.impl(lib, opname, key)` / `lib.impl(opname, f, key)`. -/
inductive DispatchAction where
  | defineOp (schema_str : String)
  | implKernel (opname : String) (key : String)
  deriving DecidableEq, Repr

/-- `FuncAndLocation` from `torch/_custom_op.py`. -/
structure FuncAndLocation where
  func : PyFunc
  location : String
  deriving DecidableEq, Repr

/-- The observable fields of a `CustomOp` object: the namespace its `Library`
was created for, `_opname`, `_qualname`, and `_fake_impl`. -/
structure CustomOp where
  lib_ns : String
  opname : String
  qualname : String
  fake_impl : Option FuncAndLocation
  deriving DecidableEq, Repr

/-- The process-wide mutable state touched by registration: `global_registry`
(an insert-at-front association list, so lookup sees the latest binding, like
Python dict assignment) together with the ordered log of dispatcher
mutations. -/
structure DispatchState where
  registry : List (String × CustomOp)
  actions : List DispatchAction
  deriving DecidableEq, Repr

/-! ## The validators (`torch/_custom_op.py`) -/

/-- `RESERVED_NS` from `torch/_custom_op.py`. -/
def RESERVED_NS : List String :=
  ["prim", "prims", "aten", "at", "torch", "pytorch"]

/-- `validate_namespace` from `torch/_custom_op.py` (`"." in ns` is membership
of the dot character among the namespace's characters). -/
def validate_namespace (ns : String) : Except PyErr Unit :=
  if ns.data.contains '.' then
    .error (.valueError ("custom_op(..., ns=\"" ++ ns ++ "\"): expected ns to not contain any . (and be a valid variable name)"))
  else if ns ∈ RESERVED_NS then
    .error (.valueError ("custom_op(..., ns='" ++ ns ++ "'): '" ++ ns ++ "' is a reserved namespace, please choose something else. "))
  else
    .ok ()

/-- The `is_non_mutating_view` test inside `validate_schema`:
`len(rets) > 0 and any(r.annotation is not None and not r.annotation.is_write
for r in rets)` (the inner conjunction short-circuits on `annotation is None`). -/
def is_non_mutating_view (rets : List Ret) : Bool :=
  decide (0 < rets.length) &&
    rets.any fun r =>
      match r.annot with
      | some a => !a.is_write
      | none => false

/-- `validate_schema` from `torch/_custom_op.py`. -/
def validate_schema (schema : FunctionSchema) : Except PyErr Unit :=
  if schema.kind ≠ SchemaKind.functional then
    .error (.valueError "custom_op does not support non-functional function schema.")
  else if is_non_mutating_view schema.returns then
    .error (.valueError "custom_op does not support view functions.")
  else if !schema.arguments.has_tensor_arg then
    .error (.valueError "custom_op does not support function schema with no Tensor inputs.")
  else if schema.returns = [] then
    .error (.valueError "custom_op does not support function schema with no outputs.")
  else if schema.arguments.self_arg ≠ none then
    .error (.valueError "custom_op does not support arguments named 'self'. Please rename your argument.")
  else
    .ok ()

/-- `validate_function_matches_schema` from `torch/_custom_op.py`: the schema's
`post_self_positional` names must equal the function's positional argument
names, and its `pre_tensor_options_kwarg_only` names must equal the function's
keyword-only argument names, each compared in order. -/
def validate_function_matches_schema (schema : FunctionSchema) (func : PyFunc) :
    Except PyErr Unit :=
  if schema.arguments.post_self_positional ≠ func.args then
    .error (.valueError "custom_op: Expected the schema to match the signature of `func`.")
  else if schema.arguments.pre_tensor_options_kwarg_only ≠ func.kwonlyargs then
    .error (.valueError "custom_op: Expected the schema to match the signature of `func`.")
  else
    .ok ()

/-- `validate_device_type` from `torch/_custom_op.py`; the supported device
types are the keys of `SUPPORTED_DEVICE_TYPE_TO_KEY`. -/
def validate_device_type (device_type : String) : Except PyErr Unit :=
  if device_type = "cpu" ∨ device_type = "cuda" then
    .ok ()
  else
    .error (.valueError ("CustomOp.impl(device_types=[" ++ device_type ++ ", ...]): we only support device_type in dict_keys(['cpu', 'cuda'])."))

/-! ## Construction and registration (`custom_op`, `CustomOp.__init__`) -/

/-- `CustomOp.__init__` from `torch/_custom_op.py`: without
`_private_access=True` it raises a `RuntimeError`; otherwise it builds the
object (qualified name `cpp_ns::operator_name.name`, `_opname` equal to
`str(operator_name)`, no fake implementation yet) and records it in
`global_registry` under its qualified name. -/
def CustomOp.init (lib_ns cpp_ns : String) (operator_name : OperatorName)
    (private_access : Bool) (st : DispatchState) :
    Except PyErr CustomOp × DispatchState :=
  if !private_access then
    (.error (.runtimeError "The CustomOp constructor is private and we do not guarantee BC for it. Please use custom_op(...) to create a CustomOp object"), st)
  else
    let qualname := cpp_ns ++ "::" ++ operator_name.name
    let op : CustomOp :=
      { lib_ns := lib_ns
        opname := operator_name.str
        qualname := qualname
        fake_impl := none }
    (.ok op, { st with registry := (qualname, op) :: st.registry })

/-- The `inner` closure of the `custom_op` decorator from
`torch/_custom_op.py`. The external `FunctionSchema.parse` is not among the
embedded files, so the parsed schema is an explicit argument `parsed` (the
schema string `func.__name__ + schema` is still recorded by `lib.define`).
The steps, in source order: the `inspect.isfunction` check, namespace
validation, schema validation, signature matching, `lib.define`, `CustomOp`
construction with `_private_access=True`, and the default `Autograd` kernel
registration. Every validation failure leaves the state untouched. -/
def custom_op_inner (schema_sig ns : String) (func : PyFunc)
    (parsed : FunctionSchema) (st : DispatchState) :
    Except PyErr CustomOp × DispatchState :=
  if !func.isFunction then
    (.error (.valueError ("custom_op(...)(func): Expected `func` to be a Python function, got: " ++ func.typeName)), st)
  else
    match validate_namespace ns with
    | .error e => (.error e, st)
    | .ok () =>
      match validate_schema parsed with
      | .error e => (.error e, st)
      | .ok () =>
        match validate_function_matches_schema parsed func with
        | .error e => (.error e, st)
        | .ok () =>
          let schema_str := func.name ++ schema_sig
          let st1 : DispatchState :=
            { st with actions := st.actions ++ [.defineOp schema_str] }
          match CustomOp.init ns ns parsed.opName true st1 with
          | (.error e, st2) => (.error e, st2)
          | (.ok op, st2) =>
            (.ok op,
             { st2 with actions := st2.actions ++ [.implKernel op.opname "Autograd"] })

/-- The duplicate-registration error message built by `CustomOp.impl_fake`'s
`inner` closure. -/
def fake_impl_conflict_msg (qualname location : String) : String :=
  "Attempting to register a FakeTensor rule for operator " ++ qualname ++
    " that already has a FakeTensor rule registered from Python at " ++
    location ++ ". This is not supported."

/-- The `inner` closure of `CustomOp.impl_fake` from `torch/_custom_op.py`.
The caller's frame (`inspect.stack()[1]`) is passed as its file name and line
number; the recorded location is `filename:lineno`. A second registration
finds `_fake_impl` already set and raises a `RuntimeError` citing the recorded
location, mutating nothing; a first registration records the function and its
location on the object and installs the `Meta` kernel. -/
def impl_fake_inner (op : CustomOp) (f : PyFunc)
    (frame_filename : String) (frame_lineno : Nat) (st : DispatchState) :
    Except PyErr (CustomOp × DispatchState) :=
  match op.fake_impl with
  | some fi => .error (.runtimeError (fake_impl_conflict_msg op.qualname fi.location))
  | none =>
    let new_location := frame_filename ++ ":" ++ toString frame_lineno
    let op' : CustomOp := { op with fake_impl := some ⟨f, new_location⟩ }
    .ok (op', { st with actions := st.actions ++ [.implKernel op.opname "Meta"] })

/-! ## The default autograd kernel -/

/-- The values the autograd kernel inspects: tensors carry their
`requires_grad` flag, everything else is opaque. -/
inductive PyVal where
  | tensor (requires_grad : Bool)
  | other
  deriving DecidableEq, Repr

/-- `isinstance(x, torch.Tensor) and x.requires_grad`. -/
def requiresGrad : PyVal → Bool
  | .tensor rg => rg
  | .other => false

/-- The `pytree.tree_any(...)` test over `(args, kwargs)` inside the autograd
kernel (the leaves of the pytree are the argument values themselves). -/
def anyRequiresGrad (args : List PyVal) (kwargs : List (String × PyVal)) : Bool :=
  args.any requiresGrad || (kwargs.map Prod.snd).any requiresGrad

/-- The `autograd_not_implemented` closure built by
`get_autograd_not_implemented_kernel` from `torch/_custom_op.py`. The
operator invocation is abstracted as `op_call`, whose first argument records
whether the `_C._AutoDispatchBelowAutograd()` guard (which disables gradient
tracking for the nested call) is active; the kernel forwards with the guard
active, and the guard is dropped in the `finally` once the call returns. -/
def autograd_not_implemented {R : Type}
    (op_call : Bool → List PyVal → List (String × PyVal) → R)
    (args : List PyVal) (kwargs : List (String × PyVal)) : Except PyErr R :=
  if anyRequiresGrad args kwargs then
    .error (.runtimeError "Autograd has not been implemented for operator")
  else
    .ok (op_call true args kwargs)

/-! ## The shape-inference context (`FakeTensorImplCtx`) -/

/-- An unbacked symbolic integer as handed out by the shape environment's
allocator: its allocation index and the floor of its default value range. -/
structure SymIntVar where
  id : Nat
  range_min : Nat
  deriving DecidableEq, Repr

/-- The observations the embedded code makes of a
`torch.fx.experimental.symbolic_shapes.ShapeEnv`: its
`allow_dynamic_output_shape_ops` flag and the allocator state (the index of
the next unbacked symbolic integer). -/
structure ShapeEnv where
  allow_dynamic_output_shape_ops : Bool
  counter : Nat
  deriving DecidableEq, Repr

/-- Modelled from the spec: `ShapeEnv.create_unbacked_symint` (defined in
`torch.fx.experimental.symbolic_shapes`, which is not among the embedded
files) allocates a fresh unbacked symbolic integer — one whose index no
earlier allocation from this environment used — whose default value range has
floor 2. -/
def ShapeEnv.create_unbacked_symint (env : ShapeEnv) : SymIntVar × ShapeEnv :=
  (⟨env.counter, 2⟩, { env with counter := env.counter + 1 })

/-- `FakeTensorImplCtx` from `torch/_custom_op.py`: the shape environment (or
`None`) and the operator it was built for. -/
structure FakeTensorImplCtx where
  shape_env : Option ShapeEnv
  op : String
  deriving DecidableEq, Repr

/-- `FakeTensorImplCtx.new_data_dependent_symint` from `torch/_custom_op.py`:
raises `DynamicOutputShapeException` when the shape environment is `None` or
disallows dynamic output shapes, and otherwise returns
`self._shape_env.create_unbacked_symint()` (paired here with the advanced
allocator state). -/
def FakeTensorImplCtx.new_data_dependent_symint (ctx : FakeTensorImplCtx) :
    Except PyErr (SymIntVar × ShapeEnv) :=
  match ctx.shape_env with
  | none => .error (.dynamicOutputShape ctx.op)
  | some env =>
    if !env.allow_dynamic_output_shape_ops then
      .error (.dynamicOutputShape ctx.op)
    else
      .ok env.create_unbacked_symint

/-! ## The ambient context provider (`global_ctx_getter`) -/

/-- The context providers that can occupy the process-wide
`global_ctx_getter` variable: `get_none` (returns `None`), the raising
`error_on_ctx` closures, and providers handing back a real context. A getter
takes no arguments, so it is represented by what calling it does. -/
inductive CtxGetter where
  | returnsNone
  | raises (msg : String)
  | returnsCtx (ctx : FakeTensorImplCtx)
  deriving DecidableEq, Repr

/-- Calling a context provider. -/
def runCtxGetter : CtxGetter → Except PyErr (Option FakeTensorImplCtx)
  | .returnsNone => .ok none
  | .raises m => .error (.runtimeError m)
  | .returnsCtx c => .ok (some c)

/-- `get_none` from `torch/_custom_op.py`, the initial value of
`global_ctx_getter`. -/
def get_none : CtxGetter := .returnsNone

/-- `get_ctx` from `torch/_custom_op.py`: calls whatever provider currently
occupies `global_ctx_getter` (threaded here as the argument). -/
def get_ctx (global_ctx_getter : CtxGetter) :
    Except PyErr (Option FakeTensorImplCtx) :=
  runCtxGetter global_ctx_getter

/-- `set_ctx_getter` from `torch/_custom_op.py`: saves the current provider,
installs `ctx_getter`, runs the body (which sees the new provider and may
itself reassign the variable), and in the `finally` restores the saved
provider — whether the body returned normally (`Except.ok`) or raised
(`Except.error`). -/
def set_ctx_getter {A : Type} (ctx_getter : CtxGetter)
    (body : CtxGetter → Except PyErr A × CtxGetter)
    (global_ctx_getter : CtxGetter) : Except PyErr A × CtxGetter :=
  let prev := global_ctx_getter
  let r := body ctx_getter
  (r.1, prev)

/-- The `error_on_ctx` message built inside `CustomOp.impl_fake`'s
`f_with_ctx` wrapper. -/
def error_on_ctx_msg (qualname new_location : String) : String :=
  "Attempted to call get_ctx() for the meta implementation for " ++ qualname ++
    "." ++ "You have presumably called get_ctx() because the operator has a data-dependent output shape; if so, there is no such meta implementation and this error is the correct behavior. Otherwise, please remove the call to get_ctx() in the implementation registered with impl_fake at " ++
    new_location

/-- The `f_with_ctx` wrapper installed on the `Meta` key by
`CustomOp.impl_fake`: it runs the registered fake implementation with the
ambient provider replaced by the raising `error_on_ctx` closure. -/
def f_with_ctx {A : Type} (qualname new_location : String)
    (f : CtxGetter → Except PyErr A × CtxGetter)
    (global_ctx_getter : CtxGetter) : Except PyErr A × CtxGetter :=
  set_ctx_getter (.raises (error_on_ctx_msg qualname new_location)) f
    global_ctx_getter

/-- Modelled from the spec: the FakeTensor subsystem (not among the embedded
files) invokes a registered fake implementation with the ambient context
provider temporarily replaced by one that hands back a real inference context
object. -/
def fake_invoke {A : Type} (ctx : FakeTensorImplCtx)
    (f : CtxGetter → Except PyErr A × CtxGetter)
    (global_ctx_getter : CtxGetter) : Except PyErr A × CtxGetter :=
  set_ctx_getter (.returnsCtx ctx) f global_ctx_getter

/-! ## The tensor-layout mini benchmark

(`benchmarks/dynamo/microbenchmarks/tensor_layout_mini_benchmark.py`.)
A tensor is embedded as its shape, its physical stride metadata, and its
logical contents in row-major order (rationals standing for the real values);
timing and CUDA placement are not modelled. -/

structure Tensor where
  shape : List Nat
  strides : List Nat
  data : List ℚ
  deriving DecidableEq, Repr

/-- Insert `x` into an already key-sorted list, keeping it sorted by `key`. -/
def insertByKey (key : Nat → Nat) (x : Nat) : List Nat → List Nat
  | [] => [x]
  | y :: ys => if key x < key y then x :: y :: ys else y :: insertByKey key x ys

/-- `sorted(range(len(order)), key=order.__getitem__)`: the indices
`0, ..., n-1` sorted by their value in `order` (insertion sort; `order` is a
permutation, so ties do not arise). -/
def argsortBy (key : Nat → Nat) : List Nat → List Nat
  | [] => []
  | x :: xs => insertByKey key x (argsortBy key xs)

/-- Modelled from the spec: inductor's `FlexibleLayout.fill_ordered(sizes,
order)` (torch._inductor is not among the embedded files) — assign strides in
the physical fill order `order`, the first-listed dimension getting stride 1
and each later one the running product of the sizes already filled. -/
def fill_ordered (sizes : List Nat) (order : List Nat) : List Nat :=
  (order.foldl
    (fun (acc : List Nat × Nat) i =>
      (acc.1.set i acc.2, acc.2 * sizes.getD i 1))
    (List.replicate sizes.length 0, 1)).1

/-- Modelled from the spec: inductor's `FlexibleLayout.stride_ordered(sizes,
order)` — `order` gives each dimension's rank in the stride ordering
(`[3, 0, 2, 1]` is channels-last for NCHW); the fill order is the argsort of
`order`. -/
def stride_ordered (sizes : List Nat) (order : List Nat) : List Nat :=
  fill_ordered sizes (argsortBy (fun i => order.getD i 0) (List.range order.length))

/-- `torch.allclose(a, b, rtol, atol)`: the shapes agree and every pair of
logical elements satisfies `|a - b| ≤ atol + rtol * |b|`. -/
def allclose (a b : Tensor) (rtol atol : ℚ) : Bool :=
  a.shape = b.shape && a.data.length = b.data.length &&
    (a.data.zip b.data).all fun p => |p.1 - p.2| ≤ atol + rtol * |p.2|

/-- The tensor produced by `x.clone().as_strided(x.shape,
stride_ordered(x.shape, [3, 0, 2, 1]))` followed by `y.copy_(x)`: same shape,
channels-last strides, and (after the copy) the same logical contents as
`x`. -/
def chan (x : Tensor) : Tensor :=
  { shape := x.shape
    strides := stride_ordered x.shape [3, 0, 2, 1]
    data := x.data }

/-- `to_channels_last` from the benchmark: asserts `x.dim() == 4`, builds the
strided copy, asserts `torch.allclose(x, y)` (default tolerances
`rtol=1e-5`, `atol=1e-8`), and returns it. An `AssertionError` aborts the
run. -/
def to_channels_last (x : Tensor) : Except String Tensor :=
  if x.shape.length ≠ 4 then
    .error "AssertionError: x.dim() == 4"
  else if !allclose x (chan x) (1 / 100000) (1 / 100000000) then
    .error "AssertionError: torch.allclose(x, y)"
  else
    .ok (chan x)

/-- `bench_conv` from the benchmark, with `torch.convolution` (an external
kernel) abstracted as `conv` and the random CUDA inputs as `x` and `weight`:
both inputs are converted to channels-last (`weight_chan` is built but the
active `test_fn` pairs the channels-last input with the standard-layout
weight), the two paths are run, and their outputs must be allclose with
`atol=1e-3, rtol=1e-3`; a mismatch fails the assertion and aborts. Timing and
trace export are not modelled. -/
def bench_conv (conv : Tensor → Tensor → Tensor) (x weight : Tensor) :
    Except String (Tensor × Tensor) :=
  match to_channels_last x with
  | .error e => .error e
  | .ok x_chan =>
    match to_channels_last weight with
    | .error e => .error e
    | .ok _weight_chan =>
      if !allclose (conv x weight) (conv x_chan weight) (1 / 1000) (1 / 1000) then
        .error "AssertionError: torch.allclose(baseline_out, test_out, atol=1e-3, rtol=1e-3)"
      else
        .ok (conv x weight, conv x_chan weight)

/-! ## Sample values (used by the concrete instantiations below) -/

/-- An empty registry and an empty dispatcher-mutation log. -/
def sampleState : DispatchState := ⟨[], []⟩

/-- A well-formed argument list: one positional tensor argument `x`. -/
def goodArgs : Arguments := ⟨["x"], [], none, true⟩

/-- A schema passing every check of `validate_schema`. -/
def goodSchema : FunctionSchema := ⟨⟨"foo", ""⟩, .functional, [⟨none⟩], goodArgs⟩

/-- A schema with no outputs (rejected by `validate_schema`). -/
def noOutSchema : FunctionSchema := ⟨⟨"foo", ""⟩, .functional, [], goodArgs⟩

/-- A Python function whose signature matches `goodSchema`. -/
def goodFunc : PyFunc := ⟨true, "function", "foo", ["x"], []⟩

/-- A Python function whose positional names do not match `goodSchema`. -/
def mismatchFunc : PyFunc := ⟨true, "function", "foo", ["y"], []⟩

/-- A value that is not a Python function (e.g. an `int`). -/
def nonFunc : PyFunc := ⟨false, "<class 'int'>", "x", [], []⟩

/-- A `CustomOp` with no fake implementation registered yet. -/
def sampleOp : CustomOp := ⟨"mylib", "foo", "mylib::foo", none⟩

/-- A one-element 4-dimensional tensor. -/
def unitTensor : Tensor := ⟨[1, 1, 1, 1], [1, 1, 1, 1], [0]⟩

/-! ## Helper lemmas -/

theorem validate_namespace_error_is_valueError {ns : String} {e : PyErr}
    (h : validate_namespace ns = .error e) : ∃ m, e = .valueError m := by
  unfold validate_namespace at h
  split_ifs at h
  · injection h with h
    exact ⟨_, h.symm⟩
  · injection h with h
    exact ⟨_, h.symm⟩

theorem validate_schema_bad_is_valueError {s : FunctionSchema}
    (h : s.kind ≠ SchemaKind.functional ∨
         is_non_mutating_view s.returns = true ∨
         s.arguments.has_tensor_arg = false ∨
         s.returns = [] ∨
         s.arguments.self_arg ≠ none) :
    ∃ m, validate_schema s = .error (.valueError m) := by
  unfold validate_schema
  split_ifs with h1 h2 h3 h4 h5
  · exact ⟨_, rfl⟩
  · exact ⟨_, rfl⟩
  · exact ⟨_, rfl⟩
  · exact ⟨_, rfl⟩
  · exact ⟨_, rfl⟩
  · rcases h with h | h | h | h | h <;> simp_all

theorem vfms_mismatch {s : FunctionSchema} {func : PyFunc}
    (h : s.arguments.post_self_positional ≠ func.args ∨
         s.arguments.pre_tensor_options_kwarg_only ≠ func.kwonlyargs) :
    ∃ m, validate_function_matches_schema s func = .error (.valueError m) := by
  unfold validate_function_matches_schema
  split_ifs with h1 h2
  · exact ⟨_, rfl⟩
  · exact ⟨_, rfl⟩
  · rcases h with h | h
    · exact absurd h h1
    · exact absurd h h2

theorem zip_self_all_true (l : List ℚ) (f : ℚ × ℚ → Bool)
    (h : ∀ a ∈ l, f (a, a) = true) : ((l.zip l).all f) = true := by
  induction l with
  | nil => rfl
  | cons a t ih =>
    rw [List.zip_cons_cons, List.all_cons, h a (by simp),
      ih (fun b hb => h b (by simp [hb]))]
    rfl

theorem allclose_chan (x : Tensor) (rtol atol : ℚ)
    (h1 : 0 ≤ rtol) (h2 : 0 ≤ atol) : allclose x (chan x) rtol atol = true := by
  unfold allclose chan
  rw [Bool.and_eq_true, Bool.and_eq_true]
  refine ⟨⟨by simp, by simp⟩, ?_⟩
  refine zip_self_all_true _ _ (fun a _ => ?_)
  simp only [sub_self, abs_zero, decide_eq_true_eq]
  exact add_nonneg h2 (mul_nonneg h1 (abs_nonneg a))

theorem to_channels_last_ok (x : Tensor) (hx : x.shape.length = 4) :
    to_channels_last x = .ok (chan x) := by
  unfold to_channels_last
  rw [if_neg (fun hc => hc hx),
    allclose_chan x (1 / 100000) (1 / 100000000) (by norm_num) (by norm_num)]
  rfl

/-! ## The claims -/

/-- C1: for every schema that is non-functional, returns an aliasing view, has
zero tensor inputs, has zero outputs, or declares a parameter named "self",
applying the `custom_op` decorator raises a `ValueError`, and the dispatcher /
registry state afterwards equals the state before the call: `validate_schema`
runs before `lib.define` and before any kernel registration. -/
theorem validate_schema_failure_blocks_registration
    (sig ns : String) (func : PyFunc) (parsed : FunctionSchema)
    (st : DispatchState)
    (h : parsed.kind ≠ SchemaKind.functional ∨
         is_non_mutating_view parsed.returns = true ∨
         parsed.arguments.has_tensor_arg = false ∨
         parsed.returns = [] ∨
         parsed.arguments.self_arg ≠ none) :
    ∃ m, custom_op_inner sig ns func parsed st = (.error (.valueError m), st) := by
  cases hf : func.isFunction with
  | false =>
    exact ⟨_, by unfold custom_op_inner; rw [hf]; rfl⟩
  | true =>
    cases hns : validate_namespace ns with
    | error e =>
      obtain ⟨m, rfl⟩ := validate_namespace_error_is_valueError hns
      exact ⟨m, by unfold custom_op_inner; rw [hf, hns]; rfl⟩
    | ok u =>
      cases u
      obtain ⟨m, hs⟩ := validate_schema_bad_is_valueError h
      exact ⟨m, by unfold custom_op_inner; rw [hf, hns, hs]; rfl⟩

theorem validate_schema_failure_blocks_registration_witness :
    ∃ m, custom_op_inner "(Tensor x) -> ()" "mylib" goodFunc noOutSchema sampleState =
      (.error (.valueError m), sampleState) :=
  validate_schema_failure_blocks_registration _ _ _ _ _
    (Or.inr (Or.inr (Or.inr (Or.inl rfl))))

/-- C2: for every valid schema and wrapped function whose positional parameter
names (in order) or keyword-only parameter names (in order) differ from the
schema's declared ones, registration raises a `ValueError`; when both tuples
match exactly, `validate_function_matches_schema` returns without error. -/
theorem function_schema_match_spec (sig ns : String) (func : PyFunc)
    (parsed : FunctionSchema) (st : DispatchState) :
    (validate_schema parsed = .ok () →
      (parsed.arguments.post_self_positional ≠ func.args ∨
       parsed.arguments.pre_tensor_options_kwarg_only ≠ func.kwonlyargs) →
      ∃ m, custom_op_inner sig ns func parsed st = (.error (.valueError m), st)) ∧
    (parsed.arguments.post_self_positional = func.args →
     parsed.arguments.pre_tensor_options_kwarg_only = func.kwonlyargs →
      validate_function_matches_schema parsed func = .ok ()) := by
  constructor
  · intro hv hnames
    cases hf : func.isFunction with
    | false =>
      exact ⟨_, by unfold custom_op_inner; rw [hf]; rfl⟩
    | true =>
      cases hns : validate_namespace ns with
      | error e =>
        obtain ⟨m, rfl⟩ := validate_namespace_error_is_valueError hns
        exact ⟨m, by unfold custom_op_inner; rw [hf, hns]; rfl⟩
      | ok u =>
        cases u
        obtain ⟨m, hm⟩ := vfms_mismatch hnames
        exact ⟨m, by unfold custom_op_inner; rw [hf, hns, hv, hm]; rfl⟩
  · intro h1 h2
    unfold validate_function_matches_schema
    rw [if_neg (fun hc => hc h1), if_neg (fun hc => hc h2)]

theorem function_schema_match_spec_witness :
    (∃ m, custom_op_inner "(Tensor x) -> Tensor" "mylib" mismatchFunc goodSchema sampleState =
      (.error (.valueError m), sampleState)) ∧
    validate_function_matches_schema goodSchema goodFunc = .ok () := by
  constructor
  · exact (function_schema_match_spec "(Tensor x) -> Tensor" "mylib" mismatchFunc
      goodSchema sampleState).1 rfl (Or.inl (by decide))
  · exact (function_schema_match_spec "(Tensor x) -> Tensor" "mylib" goodFunc
      goodSchema sampleState).2 rfl rfl

/-- C3: on a `CustomOp` with no fake implementation, the first `impl_fake`
registration succeeds and records the function together with the caller's
source location `filename:lineno`; a second registration attempt raises a
`RuntimeError` whose message contains the first registration's recorded
location (and, being an error, produces no new object or state, so the
originally recorded fake implementation is unchanged). -/
theorem impl_fake_duplicate_spec (op : CustomOp) (f g : PyFunc)
    (fn1 fn2 : String) (ln1 ln2 : Nat) (st st' : DispatchState)
    (h : op.fake_impl = none) :
    ∃ op2 st2,
      impl_fake_inner op f fn1 ln1 st = .ok (op2, st2) ∧
      op2.fake_impl = some ⟨f, fn1 ++ ":" ++ toString ln1⟩ ∧
      (∃ pre post,
        impl_fake_inner op2 g fn2 ln2 st' =
          .error (.runtimeError (pre ++ (fn1 ++ ":" ++ toString ln1) ++ post))) := by
  refine ⟨{ op with fake_impl := some ⟨f, fn1 ++ ":" ++ toString ln1⟩ },
    { st with actions := st.actions ++ [.implKernel op.opname "Meta"] }, ?_, rfl, ?_⟩
  · unfold impl_fake_inner
    rw [h]
  · exact ⟨"Attempting to register a FakeTensor rule for operator " ++ op.qualname ++
      " that already has a FakeTensor rule registered from Python at ",
      ". This is not supported.", rfl⟩

theorem impl_fake_duplicate_spec_witness :
    ∃ op2 st2,
      impl_fake_inner sampleOp goodFunc "a.py" 10 sampleState = .ok (op2, st2) ∧
      op2.fake_impl = some ⟨goodFunc, "a.py" ++ ":" ++ toString 10⟩ ∧
      (∃ pre post,
        impl_fake_inner op2 goodFunc "b.py" 20 sampleState =
          .error (.runtimeError (pre ++ ("a.py" ++ ":" ++ toString 10) ++ post))) :=
  impl_fake_duplicate_spec sampleOp goodFunc goodFunc "a.py" "b.py" 10 20
    sampleState sampleState rfl

/-- C9: for every value that is not a Python function, the `custom_op`
decorator raises a `ValueError` naming the received type; this happens before
namespace or schema validation (the same error is produced whatever the
namespace and schema are) and the dispatcher / registry state is untouched. -/
theorem custom_op_rejects_non_function (sig ns : String) (func : PyFunc)
    (parsed : FunctionSchema) (st : DispatchState)
    (h : func.isFunction = false) :
    custom_op_inner sig ns func parsed st =
      (.error (.valueError
        ("custom_op(...)(func): Expected `func` to be a Python function, got: " ++
          func.typeName)), st) := by
  unfold custom_op_inner
  rw [h]
  rfl

theorem custom_op_rejects_non_function_witness :
    custom_op_inner "(Tensor x) -> Tensor" "aten" nonFunc goodSchema sampleState =
      (.error (.valueError
        ("custom_op(...)(func): Expected `func` to be a Python function, got: " ++
          nonFunc.typeName)), sampleState) :=
  custom_op_rejects_non_function "(Tensor x) -> Tensor" "aten" nonFunc goodSchema
    sampleState rfl

/-- C10: constructing `CustomOp` directly without `_private_access=True`
raises a `RuntimeError` and changes nothing, and every successfully
constructed `CustomOp` is recorded in `global_registry` under its qualified
name `ns::opname` at construction time. -/
theorem customop_ctor_spec (lib_ns cpp_ns : String) (o : OperatorName)
    (st : DispatchState) :
    (CustomOp.init lib_ns cpp_ns o false st =
      (.error (.runtimeError "The CustomOp constructor is private and we do not guarantee BC for it. Please use custom_op(...) to create a CustomOp object"), st)) ∧
    (∀ (op : CustomOp) (st2 : DispatchState),
      CustomOp.init lib_ns cpp_ns o true st = (.ok op, st2) →
      st2.registry.lookup (cpp_ns ++ "::" ++ o.name) = some op) := by
  constructor
  · rfl
  · intro op st2 h
    have h' : ((Except.ok (CustomOp.mk lib_ns o.str (cpp_ns ++ "::" ++ o.name) none) :
        Except PyErr CustomOp),
        DispatchState.mk
          ((cpp_ns ++ "::" ++ o.name,
            CustomOp.mk lib_ns o.str (cpp_ns ++ "::" ++ o.name) none) :: st.registry)
          st.actions) = (Except.ok op, st2) := h
    rw [Prod.mk.injEq] at h'
    obtain ⟨ho, hs⟩ := h'
    injection ho with ho
    subst hs
    subst ho
    simp [List.lookup]

theorem customop_ctor_spec_witness :
    (CustomOp.init "mylib" "mylib" ⟨"foo", ""⟩ false sampleState =
      (.error (.runtimeError "The CustomOp constructor is private and we do not guarantee BC for it. Please use custom_op(...) to create a CustomOp object"), sampleState)) ∧
    (({ registry := [("mylib::foo", sampleOp)], actions := [] } : DispatchState).registry.lookup
      "mylib::foo" = some sampleOp) := by
  constructor
  · exact (customop_ctor_spec "mylib" "mylib" ⟨"foo", ""⟩ sampleState).1
  · exact (customop_ctor_spec "mylib" "mylib" ⟨"foo", ""⟩ sampleState).2
      sampleOp { registry := [("mylib::foo", sampleOp)], actions := [] } rfl

/-- C4 counterexample: with the default provider `get_none` — the value
`global_ctx_getter` holds outside any fake-implementation invocation —
`get_ctx()` returns `None` rather than failing with an error, refuting the
claim as stated. -/
theorem get_ctx_outside_returns_none_cex : get_ctx get_none = .ok none := rfl

/-- C4 (amended): calling `get_ctx()` outside any fake-implementation
invocation returns `None` (the default provider); during a meta-kernel
invocation of a registered fake implementation, `get_ctx()` raises the
explanatory `RuntimeError` naming the operator and the `impl_fake`
registration site; during a FakeTensor invocation (spec-modelled window),
`get_ctx()` returns the installed context object. -/
theorem get_ctx_window_behavior (qual loc : String) (c : FakeTensorImplCtx)
    (g0 : CtxGetter) :
    get_ctx get_none = .ok none ∧
    (f_with_ctx qual loc (fun g => (get_ctx g, g)) g0).1 =
      .error (.runtimeError (error_on_ctx_msg qual loc)) ∧
    (fake_invoke c (fun g => (get_ctx g, g)) g0).1 = .ok (some c) :=
  ⟨rfl, rfl, rfl⟩

/-- C5: `set_ctx_getter` restores the previous value of `global_ctx_getter`
on every exit path — unconditionally, and in particular both when the wrapped
body returns normally (`.ok`) and when it raises (`.error`), and regardless
of any reassignment the body itself performed. -/
theorem set_ctx_getter_restores {A : Type} (ctx_getter : CtxGetter)
    (body : CtxGetter → Except PyErr A × CtxGetter) (g : CtxGetter) :
    (set_ctx_getter ctx_getter body g).2 = g ∧
    (∀ a : A, (body ctx_getter).1 = .ok a →
      (set_ctx_getter ctx_getter body g).2 = g) ∧
    (∀ e : PyErr, (body ctx_getter).1 = .error e →
      (set_ctx_getter ctx_getter body g).2 = g) :=
  ⟨rfl, fun _ _ => rfl, fun _ _ => rfl⟩

theorem set_ctx_getter_restores_witness :
    (set_ctx_getter (.raises "boom") (fun k => ((.ok 0 : Except PyErr Nat), k))
      get_none).2 = get_none ∧
    (set_ctx_getter (.raises "boom")
      (fun k => ((.error (.runtimeError "boom") : Except PyErr Nat), k))
      get_none).2 = get_none := by
  constructor
  · exact (set_ctx_getter_restores (.raises "boom")
      (fun k => ((.ok 0 : Except PyErr Nat), k)) get_none).2.1 0 rfl
  · exact (set_ctx_getter_restores (.raises "boom")
      (fun k => ((.error (.runtimeError "boom") : Except PyErr Nat), k))
      get_none).2.2 (.runtimeError "boom") rfl

/-- C6: the default autograd kernel raises a `RuntimeError` whenever some
tensor among the positional or keyword arguments has `requires_grad` set, and
otherwise forwards the call to the operator with the below-autograd guard
active (gradient tracking disabled) and returns its result. -/
theorem autograd_kernel_spec {R : Type}
    (op_call : Bool → List PyVal → List (String × PyVal) → R)
    (args : List PyVal) (kwargs : List (String × PyVal)) :
    (anyRequiresGrad args kwargs = true →
      autograd_not_implemented op_call args kwargs =
        .error (.runtimeError "Autograd has not been implemented for operator")) ∧
    (anyRequiresGrad args kwargs = false →
      autograd_not_implemented op_call args kwargs =
        .ok (op_call true args kwargs)) := by
  constructor <;> intro h <;> simp [autograd_not_implemented, h]

theorem autograd_kernel_spec_witness :
    autograd_not_implemented (fun _ _ _ => (0 : Nat)) [.tensor true] [] =
      .error (.runtimeError "Autograd has not been implemented for operator") ∧
    autograd_not_implemented (fun _ _ _ => (0 : Nat)) [.tensor false, .other] [] =
      .ok 0 := by
  constructor
  · exact (autograd_kernel_spec (fun _ _ _ => (0 : Nat)) [.tensor true] []).1 rfl
  · exact (autograd_kernel_spec (fun _ _ _ => (0 : Nat))
      [.tensor false, .other] []).2 rfl

/-- C7: `new_data_dependent_symint` raises `DynamicOutputShapeException`
whenever the shape environment is absent or disallows dynamic output shapes;
otherwise it returns a freshly allocated unbacked symbolic integer — its
index is the allocator's counter, distinct from every previously allocated
index, the counter advances, and the default range floor is 2. -/
theorem new_symint_spec (ctx : FakeTensorImplCtx) :
    (ctx.shape_env = none →
      ctx.new_data_dependent_symint = .error (.dynamicOutputShape ctx.op)) ∧
    (∀ env : ShapeEnv, ctx.shape_env = some env →
      env.allow_dynamic_output_shape_ops = false →
      ctx.new_data_dependent_symint = .error (.dynamicOutputShape ctx.op)) ∧
    (∀ env : ShapeEnv, ctx.shape_env = some env →
      env.allow_dynamic_output_shape_ops = true →
      ctx.new_data_dependent_symint =
        .ok (⟨env.counter, 2⟩, { env with counter := env.counter + 1 }) ∧
      2 ≤ (⟨env.counter, 2⟩ : SymIntVar).range_min ∧
      (∀ j : Nat, j < env.counter → (⟨env.counter, 2⟩ : SymIntVar).id ≠ j)) := by
  refine ⟨?_, ?_, ?_⟩
  · intro h
    unfold FakeTensorImplCtx.new_data_dependent_symint
    rw [h]
  · intro env h hall
    obtain ⟨alw, cnt⟩ := env
    cases alw with
    | false =>
      unfold FakeTensorImplCtx.new_data_dependent_symint
      rw [h]
      rfl
    | true => exact Bool.noConfusion hall
  · intro env h hall
    obtain ⟨alw, cnt⟩ := env
    cases alw with
    | false => exact Bool.noConfusion hall
    | true =>
      refine ⟨?_, le_refl 2, fun j hj => (Nat.ne_of_lt hj).symm⟩
      unfold FakeTensorImplCtx.new_data_dependent_symint
      rw [h]
      rfl

theorem new_symint_spec_witness :
    (FakeTensorImplCtx.new_data_dependent_symint ⟨none, "custom::foo"⟩ =
      .error (.dynamicOutputShape "custom::foo")) ∧
    (FakeTensorImplCtx.new_data_dependent_symint ⟨some ⟨false, 0⟩, "custom::foo"⟩ =
      .error (.dynamicOutputShape "custom::foo")) ∧
    (FakeTensorImplCtx.new_data_dependent_symint ⟨some ⟨true, 5⟩, "custom::foo"⟩ =
      .ok (⟨5, 2⟩, ⟨true, 6⟩)) := by
  refine ⟨(new_symint_spec ⟨none, "custom::foo"⟩).1 rfl,
    (new_symint_spec ⟨some ⟨false, 0⟩, "custom::foo"⟩).2.1 ⟨false, 0⟩ rfl rfl, ?_⟩
  exact ((new_symint_spec ⟨some ⟨true, 5⟩, "custom::foo"⟩).2.2 ⟨true, 5⟩ rfl rfl).1

/-- C8: for every 4-dimensional tensor `x`, `to_channels_last x` succeeds and
returns a tensor element-wise equal to `x` — same shape, same logical
contents — differing only in physical stride order (the channels-last
`stride_ordered` strides); and `bench_conv` returns the two convolution
outputs when they are allclose with `atol = rtol = 1e-3`, and aborts with the
assertion error when they are not. -/
theorem layout_benchmark_spec (conv : Tensor → Tensor → Tensor) (x w : Tensor)
    (hx : x.shape.length = 4) (hw : w.shape.length = 4) :
    (to_channels_last x = .ok (chan x) ∧
      (chan x).data = x.data ∧ (chan x).shape = x.shape ∧
      (chan x).strides = stride_ordered x.shape [3, 0, 2, 1]) ∧
    (allclose (conv x w) (conv (chan x) w) (1 / 1000) (1 / 1000) = true →
      bench_conv conv x w = .ok (conv x w, conv (chan x) w)) ∧
    (allclose (conv x w) (conv (chan x) w) (1 / 1000) (1 / 1000) = false →
      bench_conv conv x w =
        .error "AssertionError: torch.allclose(baseline_out, test_out, atol=1e-3, rtol=1e-3)") := by
  have hcx := to_channels_last_ok x hx
  have hcw := to_channels_last_ok w hw
  refine ⟨⟨hcx, rfl, rfl, rfl⟩, ?_, ?_⟩
  · intro h
    unfold bench_conv
    rw [hcx, hcw]
    show (if (!allclose (conv x w) (conv (chan x) w) (1 / 1000) (1 / 1000)) = true
        then (.error "AssertionError: torch.allclose(baseline_out, test_out, atol=1e-3, rtol=1e-3)" :
          Except String (Tensor × Tensor))
        else .ok (conv x w, conv (chan x) w)) = .ok (conv x w, conv (chan x) w)
    rw [h]
    rfl
  · intro h
    unfold bench_conv
    rw [hcx, hcw]
    show (if (!allclose (conv x w) (conv (chan x) w) (1 / 1000) (1 / 1000)) = true
        then (.error "AssertionError: torch.allclose(baseline_out, test_out, atol=1e-3, rtol=1e-3)" :
          Except String (Tensor × Tensor))
        else .ok (conv x w, conv (chan x) w)) =
      .error "AssertionError: torch.allclose(baseline_out, test_out, atol=1e-3, rtol=1e-3)"
    rw [h]
    rfl

theorem layout_benchmark_spec_witness :
    to_channels_last unitTensor = .ok (chan unitTensor) ∧
    bench_conv (fun a _ => a) unitTensor unitTensor =
      .ok (unitTensor, chan unitTensor) := by
  constructor
  · exact (layout_benchmark_spec (fun a _ => a) unitTensor unitTensor rfl rfl).1.1
  · exact (layout_benchmark_spec (fun a _ => a) unitTensor unitTensor rfl rfl).2.1
      (allclose_chan unitTensor (1 / 1000) (1 / 1000) (by norm_num) (by norm_num))

end CustomOpSpec
